import Mathlib

/-!
Verification of the today-timelapse entry point (docker_entrypoint.py).

The development shallowly embeds the script: wall-clock times are minutes
since the Unix epoch (an integer); the proleptic Gregorian calendar
conversion mirrors what datetime computes; the file system is a list of
paths; external process invocations (ffmpeg, the upload backend) are
recorded in traces, with their success or failure injected as parameters.
-/

/- ## String comparison

Python compares str values lexicographically by Unicode code point.
Lean Char values are Unicode scalar values and Char < compares code
points, so the following is the Python string order. -/

/-- Lexicographic order on lists of characters, exactly as Python compares
two str values: compare code points position by position; a strict initial
segment is smaller. -/
def charListLt : List Char → List Char → Bool
  | _, [] => false
  | [], _ :: _ => true
  | a :: as, b :: bs =>
    if a < b then true
    else if b < a then false
    else charListLt as bs

/-- Python s1 < s2 on str values. -/
def strLt (a b : String) : Bool := charListLt a.data b.data

/-- Python s1 <= s2 on str values (total order derived from strLt). -/
def strLe (a b : String) : Bool := !(strLt b a)

/-- Decides whether the first list is an initial segment of the second. -/
def isInitSeg : List Char → List Char → Bool
  | [], _ => true
  | _ :: _, [] => false
  | a :: as, b :: bs => if a = b then isInitSeg as bs else false

/-- Embedding of f.endswith(".mp4") from line 44 of the script. -/
def endsWithMp4 (f : String) : Bool := List.isSuffixOf ".mp4".data f.data

/-- Insert a string into a sorted list, keeping it sorted; helper for
sortClips. -/
def insertClip (x : String) : List String → List String
  | [] => [x]
  | y :: ys => if strLe x y then x :: y :: ys else y :: insertClip x ys

/-- Embedding of Python sorted() on a list of file names. Python sorted is
an ascending stable sort under <; since equal strings are identical, every
correct ascending sort returns the same list, and insertion sort is used
here. -/
def sortClips : List String → List String
  | [] => []
  | x :: xs => insertClip x (sortClips xs)

/-- Line 44: sorted(f for f in os.listdir(input_dir) if f.endswith(".mp4")).
The directory listing is the files argument (os.listdir order is
unspecified). -/
def sortedMp4 (files : List String) : List String :=
  sortClips (files.filter endsWithMp4)

/- ## Calendar and the Batch Locator (get_video_path, lines 26 to 32)

A wall-clock time is an integer count of minutes since the Unix epoch in
local time.  The civil (proleptic Gregorian) date of a day number is
computed by the standard era-based conversion, which is what datetime
renders through strftime. -/

/-- Civil (proleptic Gregorian) date of a day count since 1970-01-01,
returned as (year, month, day).  Standard era-based conversion. -/
def civilFromDays (z : Int) : Int × Nat × Nat :=
  let z' := z + 719468
  let era : Int := z'.fdiv 146097
  let doe : Nat := (z' - era * 146097).toNat
  let yoe : Nat := (doe - doe / 1460 + doe / 36524 - doe / 146096) / 365
  let y : Int := era * 400 + yoe
  let doy : Nat := doe - (365 * yoe + yoe / 4 - yoe / 100)
  let mp : Nat := (5 * doy + 2) / 153
  let d : Nat := doy - (153 * mp + 2) / 5 + 1
  let m : Nat := if mp < 10 then mp + 3 else mp - 9
  (if m ≤ 2 then y + 1 else y, m, d)

/-- The civil date of a time given in minutes since the epoch. -/
def dateOfMinutes (t : Int) : Int × Nat × Nat := civilFromDays (t.fdiv 1440)

/-- Hour of day (0 to 23) of a time given in minutes since the epoch. -/
def hourOfMinutes (t : Int) : Nat := (t.emod 1440).toNat / 60

/-- Left-pads a digit string with zeros up to the given width. -/
def pad0 (w : Nat) (s : String) : String :=
  String.mk (List.replicate (w - s.length) '0') ++ s

/-- The Y, m and d fields of strftime: year, month and day digits. -/
def fmtYYYYMMDD (t : Int) : String :=
  pad0 4 (toString (dateOfMinutes t).1)
    ++ pad0 2 (Nat.repr (dateOfMinutes t).2.1)
    ++ pad0 2 (Nat.repr (dateOfMinutes t).2.2)

/-- The p field of strftime: AM for hours 0 to 11, PM for 12 to 23. -/
def amPmMarker (t : Int) : String :=
  if hourOfMinutes t < 12 then "AM" else "PM"

/-- Line 28: dt.strftime of the format string Y m d p, the date digits
followed by the AM or PM marker. -/
def strftimeYmdP (t : Int) : String := fmtYYYYMMDD t ++ amPmMarker t

/-- Lines 27 and 28: the batch directory name computed from the call time,
six hours (360 minutes) in the past. -/
def batchDirName (now : Int) : String := strftimeYmdP (now - 6 * 60)

/-- Path.joinpath with a single relative component. -/
def joinPath (parent name : String) : String := parent ++ "/" ++ name

/-- Path.exists against the file system modelled as a list of paths. -/
def pathExists (fs : List String) (p : String) : Bool := fs.contains p

/-- Embedding of get_video_path (lines 26 to 32): compute the batch
directory name from now minus six hours, join it onto the parent, raise
FileNotFoundError when the path does not exist, return it otherwise. -/
def get_video_path (fs : List String) (parent_dir : String) (now : Int) :
    Except String String :=
  let dir_name := batchDirName now
  let dir_path := joinPath parent_dir dir_name
  if pathExists fs dir_path then Except.ok dir_path
  else Except.error (dir_path ++ " does not exist")

/- ## Transcoder (create_timelapse, lines 41 to 70)

The two kinds of external ffmpeg invocation are recorded in a trace.
check_call raising on a nonzero exit is injected through the sampleOk and
assembleOk parameters; the number of jpeg frames each successful sampling
invocation writes is the frames parameter. -/

/-- One external ffmpeg invocation: frame sampling of a single clip
(lines 46 to 58) or the final assembly (lines 59 to 70). -/
inductive FfmpegCall where
  | sample (clip : String)
  | assemble
  deriving DecidableEq, Repr

/-- Outcome of one create_timelapse run: the trace of ffmpeg invocations,
the number of intermediate jpeg images written into the scratch
directory, the Python-level result, and whether the scratch directory
still exists after the call. -/
structure RunOutcome where
  calls : List FfmpegCall
  images : Nat
  result : Except String Unit
  scratchExists : Bool
  deriving Repr

/-- The per-clip loop of lines 45 to 58: invoke ffmpeg once per clip in
list order; a failing check_call raises at once, so later clips are not
visited.  Returns the trace, the images written and whether all
invocations succeeded. -/
def sampleStage (sampleOk : String → Bool) (frames : String → Nat) :
    List String → List FfmpegCall × Nat × Bool
  | [] => ([], 0, true)
  | c :: rest =>
    if sampleOk c then
      let r := sampleStage sampleOk frames rest
      (FfmpegCall.sample c :: r.1, frames c + r.2.1, r.2.2)
    else ([FfmpegCall.sample c], 0, false)

/-- Embedding of create_timelapse (lines 41 to 70).  The TemporaryDirectory
context of line 43 creates the scratch directory on entry and removes it on
exit of the with block on every path, normal or raising, which is why
scratchExists is false in every branch.  The body lists and sorts the mp4
clips, runs the sampling loop, then one assembly invocation; a raising
check_call propagates after the scratch cleanup. -/
def create_timelapse (files : List String) (sampleOk : String → Bool)
    (frames : String → Nat) (assembleOk : Bool) : RunOutcome :=
  let clips := sortedMp4 files
  let s := sampleStage sampleOk frames clips
  if s.2.2 then
    if assembleOk then
      ⟨s.1 ++ [FfmpegCall.assemble], s.2.1, Except.ok (), false⟩
    else
      ⟨s.1 ++ [FfmpegCall.assemble], s.2.1, Except.error "CalledProcessError", false⟩
  else ⟨s.1, s.2.1, Except.error "CalledProcessError", false⟩

/-- The image naming scheme of line 56: the clip file name with the
suffix given by the pattern underscore, five zero-padded digits, .jpeg. -/
def imgSuffix (k : Nat) : String := "_" ++ pad0 5 (Nat.repr k) ++ ".jpeg"

/-- Name of the k-th intermediate image sampled from a clip, per the
output pattern of line 56. -/
def imageName (clip : String) (k : Nat) : String := clip ++ imgSuffix k

/- ## Upload Client construction (_YouTubeUploader.__init__, lines 77 to 88) -/

/-- The two credential files under the configured root: none means the
file does not exist, some c means it exists with content c. -/
structure CredFiles where
  secrets : Option String
  credentials : Option String
  deriving DecidableEq, Repr

/-- Embedding of _YouTubeUploader.__init__ (lines 77 to 88), starting from
a root with neither file present.  Python evaluation order is what matters:
the with statement of line 83 opens secrets.json in wb mode, creating it
truncated to empty, before the body evaluates os.environb of SECRETS_JSON
(a KeyError when absent) and b64decode (which can raise on bad input);
only then is the decoded content written.  The same order repeats for
credentials.json on lines 86 to 88.  b64decode is an abstract parameter
returning none on a decoding error. -/
def uploaderInit (b64decode : String → Option String)
    (secretsEnv credentialsEnv : Option String) :
    Except String Unit × CredFiles :=
  let fs1 : CredFiles := { secrets := some "", credentials := none }
  match secretsEnv with
  | none => (Except.error "KeyError: SECRETS_JSON", fs1)
  | some blob =>
    match b64decode blob with
    | none => (Except.error "binascii.Error", fs1)
    | some content =>
      let fs2 : CredFiles := { secrets := some content, credentials := some "" }
      match credentialsEnv with
      | none => (Except.error "KeyError: CREDENTIALS_JSON", fs2)
      | some blob2 =>
        match b64decode blob2 with
        | none => (Except.error "binascii.Error", fs2)
        | some content2 =>
          (Except.ok (), { secrets := some content, credentials := some content2 })

/- ## Upload Client singleton (YouTubeUploader, lines 104 to 110)

Python calls cls.__new__ and then, because the returned object is an
instance of cls, always calls __init__ on it.  YouTubeUploader.__new__
caches the allocation in the class attribute obj, but nothing suppresses
the repeated __init__, so every YouTubeUploader() call re-runs
_YouTubeUploader.__init__ and rewrites both credential files. -/

/-- Process-wide state relevant to the uploader singleton: whether the
class attribute obj is set, how many allocations happened, and how many
times each credential file has been written. -/
structure UploaderProcState where
  objAllocated : Bool
  allocations : Nat
  secretsWrites : Nat
  credentialsWrites : Nat
  deriving DecidableEq, Repr

/-- Fresh process: obj is None, nothing written. -/
def initUploaderProcState : UploaderProcState := ⟨false, 0, 0, 0⟩

/-- YouTubeUploader.__new__ (lines 107 to 110): allocate only when the
class attribute obj is still None. -/
def youTubeUploaderNew (st : UploaderProcState) : UploaderProcState :=
  if st.objAllocated then st
  else { st with objAllocated := true, allocations := st.allocations + 1 }

/-- The file-writing effect of _YouTubeUploader.__init__ (lines 77 to 88)
with both environment variables present: each credential file is written
once more. -/
def youTubeUploaderInitStep (st : UploaderProcState) : UploaderProcState :=
  { st with secretsWrites := st.secretsWrites + 1,
            credentialsWrites := st.credentialsWrites + 1 }

/-- One evaluation of the expression YouTubeUploader(): Python runs
__new__ and then always runs __init__ on the instance it returned. -/
def youTubeUploaderCall (st : UploaderProcState) : UploaderProcState :=
  youTubeUploaderInitStep (youTubeUploaderNew st)

/-- Process state after n evaluations of YouTubeUploader() (one per upload
attempt in job, line 142). -/
def uploaderCalls : Nat → UploaderProcState
  | 0 => initUploaderProcState
  | n + 1 => youTubeUploaderCall (uploaderCalls n)

/- ## CLI parsing and startup validation (parse_args and main) -/

/-- A Python value as far as the startup check needs it: the None
singleton, a bool, or a str. -/
inductive PyVal where
  | pynone
  | pybool (b : Bool)
  | pystr (s : String)
  deriving DecidableEq, Repr

/-- A command line: which flags and options were passed. -/
structure CmdLine where
  dirs : List String
  tmpPathOpt : Option String
  nowFlag : Bool
  outputOpt : Option String
  uploadFlag : Bool

/-- The argparse Namespace produced by parse_args. -/
structure ParsedArgs where
  dir : List String
  tmp_path : Option String
  now : Bool
  output : PyVal
  upload : PyVal

/-- Embedding of parse_args (lines 113 to 121).  The upload argument is
declared with action store_true on line 119, so the attribute is False
when the flag is absent and True when present, never None.  The output
option defaults to None and carries a path string when given. -/
def parse_args (c : CmdLine) : ParsedArgs :=
  { dir := c.dirs
    tmp_path := c.tmpPathOpt
    now := c.nowFlag
    output := match c.outputOpt with
      | none => PyVal.pynone
      | some s => PyVal.pystr s
    upload := PyVal.pybool c.uploadFlag }

/-- Python x is None. -/
def pyIsNone : PyVal → Bool
  | PyVal.pynone => true
  | _ => false

/-- The startup check of lines 152 and 153: args.upload is None and
args.output is None, guarding the RuntimeError. -/
def mainConfigErrorRaised (a : ParsedArgs) : Bool :=
  pyIsNone a.upload && pyIsNone a.output

/- ## Job Runner (job, lines 124 to 145)

Per directory the loop needs three outside facts: whether the batch
directory exists, whether the transcoding invocations all succeed, and
whether the upload succeeds. -/

/-- The environment one camera directory meets during a run. -/
structure DirEnv where
  batchFound : Bool
  transcodeOk : Bool
  uploadOk : Bool
  deriving DecidableEq, Repr

/-- Embedding of the loop of job (lines 129 to 145).  Returns the list of
directories whose loop body was entered (attempted) and the Python-level
result of the whole call.  get_video_path raising FileNotFoundError is
caught on line 132 (warn and continue); an exception from create_timelapse
on line 139 is caught nowhere in job, so it propagates and the remaining
directories are never reached; an exception from the upload on line 142 is
caught on line 144 (log and continue). -/
def job (upload : Bool) : List (String × DirEnv) → List String × Except String Unit
  | [] => ([], Except.ok ())
  | (d, env) :: rest =>
    if env.batchFound = false then
      let r := job upload rest
      (d :: r.1, r.2)
    else if env.transcodeOk = false then
      ([d], Except.error "CalledProcessError")
    else
      let r := job upload rest
      (d :: r.1, r.2)

/- ## Lemmas about the string order -/

theorem charListLt_nil_right : ∀ x : List Char, charListLt x [] = false
  | [] => rfl
  | _ :: _ => rfl

theorem charListLt_nil_cons (b : Char) (bs : List Char) :
    charListLt [] (b :: bs) = true := rfl

theorem charListLt_cons (a b : Char) (as bs : List Char) :
    charListLt (a :: as) (b :: bs)
      = if a < b then true else if b < a then false else charListLt as bs := rfl

theorem isInitSeg_nil (y : List Char) : isInitSeg [] y = true := rfl

theorem isInitSeg_cons (a b : Char) (as bs : List Char) :
    isInitSeg (a :: as) (b :: bs)
      = if a = b then isInitSeg as bs else false := rfl

theorem charListLt_asymm : ∀ x y : List Char,
    charListLt x y = true → charListLt y x = false
  | x, [], h => absurd h (by rw [charListLt_nil_right]; exact Bool.false_ne_true)
  | [], _ :: _, _ => charListLt_nil_right _
  | a :: as, b :: bs, h => by
    rw [charListLt_cons] at h ⊢
    rcases lt_trichotomy a b with hab | rfl | hab
    · rw [if_neg (lt_asymm hab), if_pos hab]
    · rw [if_neg (lt_irrefl a), if_neg (lt_irrefl a)] at h ⊢
      exact charListLt_asymm as bs h
    · rw [if_neg (lt_asymm hab), if_pos hab] at h
      exact absurd h Bool.false_ne_true

theorem charListLt_connex : ∀ x y : List Char,
    x ≠ y → charListLt x y = true ∨ charListLt y x = true
  | [], [], h => absurd rfl h
  | [], _ :: _, _ => Or.inl (charListLt_nil_cons _ _)
  | _ :: _, [], _ => Or.inr (charListLt_nil_cons _ _)
  | a :: as, b :: bs, h => by
    rcases lt_trichotomy a b with hab | rfl | hab
    · exact Or.inl (by rw [charListLt_cons, if_pos hab])
    · have hne : as ≠ bs := fun he => h (by rw [he])
      rcases charListLt_connex as bs hne with h1 | h1
      · exact Or.inl
          (by rw [charListLt_cons, if_neg (lt_irrefl a), if_neg (lt_irrefl a), h1])
      · exact Or.inr
          (by rw [charListLt_cons, if_neg (lt_irrefl a), if_neg (lt_irrefl a), h1])
    · exact Or.inr (by rw [charListLt_cons, if_pos hab])

theorem charListLt_trans : ∀ x y z : List Char,
    charListLt x y = true → charListLt y z = true → charListLt x z = true
  | _, y, [], _, hyz => absurd hyz (by rw [charListLt_nil_right]; exact Bool.false_ne_true)
  | [], _, _ :: _, _, _ => charListLt_nil_cons _ _
  | _ :: _, [], _ :: _, hxy, _ =>
    absurd hxy (by rw [charListLt_nil_right]; exact Bool.false_ne_true)
  | a :: as, b :: bs, c :: cs, hxy, hyz => by
    rw [charListLt_cons] at hxy hyz ⊢
    rcases lt_trichotomy a b with hab | rfl | hab
    · rcases lt_trichotomy b c with hbc | rfl | hbc
      · rw [if_pos (lt_trans hab hbc)]
      · rw [if_pos hab]
      · rw [if_neg (lt_asymm hbc), if_pos hbc] at hyz
        exact absurd hyz Bool.false_ne_true
    · rcases lt_trichotomy a c with hac | rfl | hac
      · rw [if_pos hac]
      · rw [if_neg (lt_irrefl a), if_neg (lt_irrefl a)] at hxy hyz ⊢
        exact charListLt_trans as bs cs hxy hyz
      · rw [if_neg (lt_asymm hac), if_pos hac] at hyz
        exact absurd hyz Bool.false_ne_true
    · rw [if_neg (lt_asymm hab), if_pos hab] at hxy
      exact absurd hxy Bool.false_ne_true

theorem charListLt_append : ∀ x y s t : List Char,
    charListLt x y = true → isInitSeg x y = false →
    charListLt (x ++ s) (y ++ t) = true
  | [], y, _, _, _, hpre => by rw [isInitSeg_nil] at hpre; exact Bool.noConfusion hpre
  | _ :: _, [], _, _, hlt, _ =>
    absurd hlt (by rw [charListLt_nil_right]; exact Bool.false_ne_true)
  | a :: as, b :: bs, s, t, hlt, hpre => by
    rw [List.cons_append, List.cons_append, charListLt_cons]
    rw [charListLt_cons] at hlt
    rw [isInitSeg_cons] at hpre
    rcases lt_trichotomy a b with hab | rfl | hab
    · rw [if_pos hab]
    · rw [if_neg (lt_irrefl a), if_neg (lt_irrefl a)] at hlt ⊢
      rw [if_pos rfl] at hpre
      exact charListLt_append as bs s t hlt hpre
    · rw [if_neg (lt_asymm hab), if_pos hab] at hlt
      exact absurd hlt Bool.false_ne_true

theorem strLt_asymm {a b : String} (h : strLt a b = true) : strLt b a = false :=
  charListLt_asymm a.data b.data h

theorem strLe_total (a b : String) : strLe a b = true ∨ strLe b a = true := by
  unfold strLe
  cases hba : strLt b a
  · exact Or.inl rfl
  · exact Or.inr (by rw [strLt_asymm hba]; rfl)

theorem strLe_trans {a b c : String}
    (h1 : strLe a b = true) (h2 : strLe b c = true) : strLe a c = true := by
  unfold strLe at h1 h2 ⊢
  cases hca : strLt c a
  · rfl
  · exfalso
    by_cases hzy : c.data = b.data
    · have : strLt b a = true := by
        unfold strLt at hca ⊢
        rw [← hzy]
        exact hca
      rw [this] at h1
      simp at h1
    · rcases charListLt_connex c.data b.data hzy with hz | hz
      · have : strLt c b = true := hz
        rw [this] at h2
        simp at h2
      · have : strLt b a = true := charListLt_trans b.data c.data a.data hz hca
        rw [this] at h1
        simp at h1

theorem strLt_of_strLe_ne {a b : String}
    (hle : strLe a b = true) (hne : a ≠ b) : strLt a b = true := by
  have hdata : a.data ≠ b.data := fun he => hne (String.ext he)
  rcases charListLt_connex a.data b.data hdata with h | h
  · exact h
  · exfalso
    have : strLt b a = true := h
    unfold strLe at hle
    rw [this] at hle
    simp at hle

/- ## Lemmas about sortClips -/

theorem insertClip_perm (x : String) (l : List String) :
    (insertClip x l).Perm (x :: l) := by
  induction l with
  | nil => exact List.Perm.refl _
  | cons y ys ih =>
    unfold insertClip
    by_cases h : strLe x y = true
    · rw [if_pos h]
    · rw [if_neg h]
      exact (ih.cons y).trans (List.Perm.swap x y ys)

theorem sortClips_perm : ∀ l : List String, (sortClips l).Perm l
  | [] => List.Perm.refl _
  | x :: xs => (insertClip_perm x (sortClips xs)).trans ((sortClips_perm xs).cons x)

theorem insertClip_pairwise (x : String) {l : List String}
    (h : l.Pairwise (fun a b => strLe a b = true)) :
    (insertClip x l).Pairwise (fun a b => strLe a b = true) := by
  induction l with
  | nil => simp [insertClip]
  | cons y ys ih =>
    rw [List.pairwise_cons] at h
    obtain ⟨hy, hys⟩ := h
    unfold insertClip
    by_cases hxy : strLe x y = true
    · rw [if_pos hxy]
      refine List.Pairwise.cons ?_ (List.Pairwise.cons hy hys)
      intro z hz
      rcases List.mem_cons.mp hz with rfl | hz
      · exact hxy
      · exact strLe_trans hxy (hy z hz)
    · rw [if_neg hxy]
      refine List.Pairwise.cons ?_ (ih hys)
      have hyx : strLe y x = true := by
        have h0 : strLe x y = false := by
          cases hh : strLe x y
          · rfl
          · exact absurd hh hxy
        have h1 : strLt y x = true := by
          unfold strLe at h0
          cases hlt : strLt y x
          · rw [hlt] at h0
            exact Bool.noConfusion h0
          · rfl
        unfold strLe
        rw [strLt_asymm h1]
        rfl
      intro z hz
      rcases List.mem_cons.mp ((insertClip_perm x ys).mem_iff.mp hz) with rfl | hz2
      · exact hyx
      · exact hy z hz2

theorem sortClips_pairwise : ∀ l : List String,
    (sortClips l).Pairwise (fun a b => strLe a b = true)
  | [] => List.Pairwise.nil
  | x :: xs => insertClip_pairwise x (sortClips_pairwise xs)

/- ## Lemmas about the transcoder loop and the other components -/

theorem sampleStage_allOk (sampleOk : String → Bool) (frames : String → Nat)
    (hok : ∀ c, sampleOk c = true) : ∀ l : List String,
    (sampleStage sampleOk frames l).1 = l.map FfmpegCall.sample
      ∧ (sampleStage sampleOk frames l).2.2 = true
  | [] => ⟨rfl, rfl⟩
  | c :: rest => by
    have ih := sampleStage_allOk sampleOk frames hok rest
    simp [sampleStage, hok c, ih.1, ih.2]

theorem job_all_attempted (upload : Bool) : ∀ l : List (String × DirEnv),
    (∀ p ∈ l, p.2.batchFound = true → p.2.transcodeOk = true) →
    (job upload l).1 = l.map Prod.fst ∧ (job upload l).2 = Except.ok ()
  | [], _ => ⟨rfl, rfl⟩
  | (d, env) :: rest, h => by
    have hrest := job_all_attempted upload rest
      (fun p hp => h p (List.mem_cons_of_mem _ hp))
    cases hb : env.batchFound
    · simp [job, hb, hrest.1, hrest.2]
    · have ht : env.transcodeOk = true := h (d, env) (List.mem_cons_self _ _) hb
      simp [job, hb, ht, hrest.1, hrest.2]

theorem uploaderCalls_succ : ∀ n : Nat,
    uploaderCalls (n + 1) = ⟨true, 1, n + 1, n + 1⟩
  | 0 => rfl
  | n + 1 => by
    show youTubeUploaderCall (uploaderCalls (n + 1)) = _
    rw [uploaderCalls_succ n]
    rfl

/- ## Claim theorems -/

/-- C1: for every parent directory P and call time T, the Batch Locator
computes the batch directory name by formatting T minus 6 hours as
YYYYMMDD followed by the AM or PM marker, joins that name onto P, returns
that path exactly when it exists on disk, and raises FileNotFoundError
exactly when the computed path does not exist at call time. -/
theorem batch_locator_name_and_not_found (fs : List String) (parent : String)
    (now : Int) :
    batchDirName now = fmtYYYYMMDD (now - 6 * 60) ++ amPmMarker (now - 6 * 60)
    ∧ (get_video_path fs parent now
          = Except.ok (joinPath parent (batchDirName now))
        ↔ pathExists fs (joinPath parent (batchDirName now)) = true)
    ∧ ((∃ e, get_video_path fs parent now = Except.error e)
        ↔ pathExists fs (joinPath parent (batchDirName now)) = false) := by
  refine ⟨rfl, ?_, ?_⟩
  · cases h : pathExists fs (joinPath parent (batchDirName now)) <;>
      simp [get_video_path, h]
  · cases h : pathExists fs (joinPath parent (batchDirName now)) <;>
      simp [get_video_path, h]

/-- C2: for every batch directory whose mp4 clip names are pairwise
distinct, and when every sampling invocation succeeds, create_timelapse
invokes ffmpeg once per mp4 clip, in Python lexicographic order of the
clip names, and then invokes the assembly stage exactly once, strictly
after all sampling invocations. -/
theorem sampling_once_per_clip_then_assembly (files : List String)
    (sampleOk : String → Bool) (frames : String → Nat) (assembleOk : Bool)
    (hnd : (files.filter endsWithMp4).Nodup)
    (hok : ∀ c, sampleOk c = true) :
    ∃ clips : List String,
      (create_timelapse files sampleOk frames assembleOk).calls
          = clips.map FfmpegCall.sample ++ [FfmpegCall.assemble]
        ∧ clips.Perm (files.filter endsWithMp4)
        ∧ clips.length = (files.filter endsWithMp4).length
        ∧ clips.Pairwise (fun a b => strLt a b = true) := by
  have hs := sampleStage_allOk sampleOk frames hok (sortedMp4 files)
  have hperm : (sortedMp4 files).Perm (files.filter endsWithMp4) := by
    unfold sortedMp4
    exact sortClips_perm _
  have hple : (sortedMp4 files).Pairwise (fun a b => strLe a b = true) := by
    unfold sortedMp4
    exact sortClips_pairwise _
  have hn : (sortedMp4 files).Pairwise (fun a b => a ≠ b) := hperm.symm.nodup hnd
  refine ⟨sortedMp4 files, ?_, hperm, hperm.length_eq, ?_⟩
  · cases assembleOk <;> simp [create_timelapse, hs.1, hs.2]
  · exact (hple.and hn).imp fun hab => strLt_of_strLe_ne hab.1 hab.2

/-- Witness for C2 on a concrete directory listing of two clips and one
non-clip file. -/
theorem sampling_once_per_clip_then_assembly_witness :
    ((["b.mp4", "a.mp4", "notes.txt"].filter endsWithMp4).Nodup
      ∧ ∀ c : String, (fun _ : String => true) c = true)
    ∧ ∃ clips : List String,
        (create_timelapse ["b.mp4", "a.mp4", "notes.txt"] (fun _ => true)
            (fun _ => 3) true).calls
            = clips.map FfmpegCall.sample ++ [FfmpegCall.assemble]
          ∧ clips.Perm (["b.mp4", "a.mp4", "notes.txt"].filter endsWithMp4)
          ∧ clips.length = (["b.mp4", "a.mp4", "notes.txt"].filter endsWithMp4).length
          ∧ clips.Pairwise (fun a b => strLt a b = true) :=
  ⟨⟨by decide, fun _ => rfl⟩,
    sampling_once_per_clip_then_assembly ["b.mp4", "a.mp4", "notes.txt"]
      (fun _ => true) (fun _ => 3) true (by decide) (fun _ => rfl)⟩

/-- C3 counterexample: with two directories whose batches both exist, a
transcoding failure in the first aborts job before the second is
attempted, so the claim that no failure kind prevents the remaining
directories is false on the code. -/
theorem job_counterexample_transcode_aborts :
    (job true [("cam1", (⟨true, false, true⟩ : DirEnv)),
        ("cam2", ⟨true, true, true⟩)]).1 = ["cam1"]
    ∧ ¬ ("cam2" ∈ (job true [("cam1", (⟨true, false, true⟩ : DirEnv)),
        ("cam2", ⟨true, true, true⟩)]).1) := by decide

/-- C3 amended: a batch-not-found failure or an upload failure never
prevents the remaining directories from being attempted, and when no
transcoding failure occurs the whole run attempts every directory and
returns normally; a transcoding failure, by contrast, propagates. -/
theorem job_isolation_amended (upload : Bool) (l : List (String × DirEnv))
    (h : ∀ p ∈ l, p.2.batchFound = true → p.2.transcodeOk = true) :
    (job upload l).1 = l.map Prod.fst ∧ (job upload l).2 = Except.ok () :=
  job_all_attempted upload l h

/-- Witness for the amended C3: one missing batch and one failing upload
still leave all three directories attempted. -/
theorem job_isolation_amended_witness :
    (∀ p ∈ [("a", (⟨false, true, true⟩ : DirEnv)), ("b", ⟨true, true, false⟩),
        ("c", ⟨true, true, true⟩)], p.2.batchFound = true → p.2.transcodeOk = true)
    ∧ ((job true [("a", (⟨false, true, true⟩ : DirEnv)), ("b", ⟨true, true, false⟩),
          ("c", ⟨true, true, true⟩)]).1
        = [("a", (⟨false, true, true⟩ : DirEnv)), ("b", ⟨true, true, false⟩),
          ("c", ⟨true, true, true⟩)].map Prod.fst
       ∧ (job true [("a", (⟨false, true, true⟩ : DirEnv)), ("b", ⟨true, true, false⟩),
          ("c", ⟨true, true, true⟩)]).2 = Except.ok ()) :=
  ⟨by decide, job_isolation_amended true _ (by decide)⟩

/-- C4: the startup validation of lines 152 and 153 can never fire, on any
command line: args.upload comes from a store_true argument and is a bool,
never None, so the condition args.upload is None is always false and the
program proceeds even when neither flag was given.  The code contradicts
its own RuntimeError message, which says to specify one of the two. -/
theorem startup_validation_never_fires (c : CmdLine) :
    mainConfigErrorRaised (parse_args c) = false := rfl

/-- C5 counterexample: constructing the Upload Client with both
environment variables absent does fail, but secrets.json has already been
created (empty) by the open in wb mode before the environment lookup
raised, refuting that no credential file is created. -/
theorem uploader_init_counterexample :
    (uploaderInit (fun s => some s) none none).2.secrets = some ""
    ∧ ∃ e, (uploaderInit (fun s => some s) none none).1 = Except.error e :=
  ⟨rfl, ⟨"KeyError: SECRETS_JSON", rfl⟩⟩

/-- C5 amended: if either environment variable is absent the construction
fails with a KeyError, but secrets.json is nonetheless created before the
failure (empty when SECRETS_JSON itself is absent). -/
theorem uploader_init_amended (b64decode : String → Option String)
    (se ce : Option String) (h : se = none ∨ ce = none) :
    (∃ e, (uploaderInit b64decode se ce).1 = Except.error e)
    ∧ (uploaderInit b64decode se ce).2.secrets.isSome = true := by
  cases se with
  | none => exact ⟨⟨"KeyError: SECRETS_JSON", rfl⟩, rfl⟩
  | some blob =>
    have hce : ce = none := h.resolve_left (by simp)
    subst hce
    cases hdec : b64decode blob with
    | none =>
      exact ⟨⟨"binascii.Error", by simp [uploaderInit, hdec]⟩,
        by simp [uploaderInit, hdec]⟩
    | some content =>
      exact ⟨⟨"KeyError: CREDENTIALS_JSON", by simp [uploaderInit, hdec]⟩,
        by simp [uploaderInit, hdec]⟩

/-- Witness for the amended C5: SECRETS_JSON present, CREDENTIALS_JSON
absent. -/
theorem uploader_init_amended_witness :
    ((some "blob" : Option String) = none ∨ (none : Option String) = none)
    ∧ ((∃ e, (uploaderInit (fun s => some s) (some "blob") none).1 = Except.error e)
       ∧ (uploaderInit (fun s => some s) (some "blob") none).2.secrets.isSome = true) :=
  ⟨Or.inr rfl,
    uploader_init_amended (fun s => some s) (some "blob") none (Or.inr rfl)⟩

/-- C6 counterexample: after two YouTubeUploader() constructions (two
uploads) the secrets file has been written twice, refuting that the
credential files are written exactly once per process. -/
theorem uploader_singleton_counterexample :
    (uploaderCalls 2).secretsWrites = 2
    ∧ ¬ ((uploaderCalls 2).secretsWrites = 1) := by decide

/-- C6 amended: the uploader object is allocated at most once per process,
but Python re-runs the inherited init on every YouTubeUploader() call, so
both credential files are decoded and rewritten once per construction,
that is once per upload attempt, rather than exactly once. -/
theorem uploader_singleton_amended (n : Nat) :
    (uploaderCalls n).allocations = min n 1
    ∧ (uploaderCalls n).secretsWrites = n
    ∧ (uploaderCalls n).credentialsWrites = n := by
  cases n with
  | zero =>
    refine ⟨?_, rfl, rfl⟩
    show 0 = min 0 1
    omega
  | succ m =>
    rw [uploaderCalls_succ m]
    refine ⟨?_, rfl, rfl⟩
    show 1 = min (m + 1) 1
    omega

/-- C7: after every create_timelapse call, whatever the clip listing and
whether the sampling or assembly invocations succeeded or raised, the
scratch directory for intermediate images no longer exists. -/
theorem scratch_removed_always (files : List String) (sampleOk : String → Bool)
    (frames : String → Nat) (assembleOk : Bool) :
    (create_timelapse files sampleOk frames assembleOk).scratchExists = false := by
  cases h : (sampleStage sampleOk frames (sortedMp4 files)).2.2 <;>
    cases assembleOk <;> simp [create_timelapse, h]

/-- C8: two call times whose reference instants, six hours earlier, share
the same civil date and the same AM or PM half of the day yield the same
batch directory name. -/
theorem batch_name_same_half_day (t t' : Int)
    (hdate : dateOfMinutes (t - 6 * 60) = dateOfMinutes (t' - 6 * 60))
    (hampm : hourOfMinutes (t - 6 * 60) < 12 ↔ hourOfMinutes (t' - 6 * 60) < 12) :
    batchDirName t = batchDirName t' := by
  unfold batchDirName strftimeYmdP fmtYYYYMMDD amPmMarker
  rw [hdate]
  congr 1
  by_cases h : hourOfMinutes (t - 6 * 60) < 12
  · rw [if_pos h, if_pos (hampm.mp h)]
  · rw [if_neg h, if_neg fun hh => h (hampm.mpr hh)]

/-- Witness for C8: two times one hour apart inside the same half-day
window. -/
theorem batch_name_same_half_day_witness :
    (dateOfMinutes (1000 - 6 * 60) = dateOfMinutes (1060 - 6 * 60)
      ∧ (hourOfMinutes (1000 - 6 * 60) < 12 ↔ hourOfMinutes (1060 - 6 * 60) < 12))
    ∧ batchDirName 1000 = batchDirName 1060 :=
  ⟨⟨by decide, by decide⟩,
    batch_name_same_half_day 1000 1060 (by decide) (by decide)⟩

/-- C9 counterexample: both names end in .mp4 and a.mp4 sorts before
a.mp4A.mp4, yet the first image of a.mp4 does not sort before the first
image of a.mp4A.mp4, because the underscore of the image suffix compares
greater than the capital A that follows the shorter clip name. -/
theorem image_order_counterexample :
    endsWithMp4 "a.mp4" = true ∧ endsWithMp4 "a.mp4A.mp4" = true
    ∧ strLt "a.mp4" "a.mp4A.mp4" = true
    ∧ strLt (imageName "a.mp4" 1) (imageName "a.mp4A.mp4" 1) = false := by decide

/-- C9 amended: for clips A before B in the lexicographic order, every
image of A sorts before every image of B, provided A is not an initial
segment of the name B. -/
theorem image_order_amended (A B : String) (i j : Nat)
    (_hA : endsWithMp4 A = true) (_hB : endsWithMp4 B = true)
    (hlt : strLt A B = true) (hpre : isInitSeg A.data B.data = false) :
    strLt (imageName A i) (imageName B j) = true := by
  unfold imageName strLt
  rw [String.data_append, String.data_append]
  exact charListLt_append A.data B.data _ _ hlt hpre

/-- Witness for the amended C9 on two ordinary clip names. -/
theorem image_order_amended_witness :
    (endsWithMp4 "a.mp4" = true ∧ endsWithMp4 "b.mp4" = true
      ∧ strLt "a.mp4" "b.mp4" = true ∧ isInitSeg "a.mp4".data "b.mp4".data = false)
    ∧ strLt (imageName "a.mp4" 1) (imageName "b.mp4" 2) = true :=
  ⟨⟨by decide, by decide, by decide, by decide⟩,
    image_order_amended "a.mp4" "b.mp4" 1 2 (by decide) (by decide) (by decide)
      (by decide)⟩

/-- C10: with no mp4 clip in the batch directory, create_timelapse makes
no sampling invocation, still makes the assembly invocation exactly once,
the scratch directory holds zero intermediate images for the glob to
match, and a failure of that invocation propagates to the caller. -/
theorem empty_batch_assembly_only (files : List String)
    (sampleOk : String → Bool) (frames : String → Nat) (assembleOk : Bool)
    (h : files.filter endsWithMp4 = []) :
    (create_timelapse files sampleOk frames assembleOk).calls = [FfmpegCall.assemble]
    ∧ (create_timelapse files sampleOk frames assembleOk).images = 0
    ∧ (create_timelapse files sampleOk frames assembleOk).result
        = (if assembleOk then Except.ok () else Except.error "CalledProcessError") := by
  have hs : sortedMp4 files = [] := by
    unfold sortedMp4
    rw [h]
    rfl
  cases assembleOk <;> simp [create_timelapse, hs, sampleStage]

/-- Witness for C10: a directory with a single non-clip file and a failing
assembly invocation. -/
theorem empty_batch_assembly_only_witness :
    ["notes.txt"].filter endsWithMp4 = []
    ∧ ((create_timelapse ["notes.txt"] (fun _ => true) (fun _ => 3) false).calls
          = [FfmpegCall.assemble]
       ∧ (create_timelapse ["notes.txt"] (fun _ => true) (fun _ => 3) false).images = 0
       ∧ (create_timelapse ["notes.txt"] (fun _ => true) (fun _ => 3) false).result
           = (if false then Except.ok () else Except.error "CalledProcessError")) :=
  ⟨by decide, empty_batch_assembly_only ["notes.txt"] (fun _ => true) (fun _ => 3)
    false (by decide)⟩
